import Mathlib

/-!
Verification of the lactic-acid biorefinery leaf blocks.

The two custom unit operations of the repository are embedded shallowly:
streams are species-indexed molar-flow records over the rationals
(the Python floats are idealised as exact rationals), and each block's
balance (`_run`), sizing (`_design`) and costing (`_cost`) step becomes a
pure Lean function.  Derived stream quantities that the external flowsheet
engine computes (volumetric flow `F_vol`) and the non-integer power laws
of the cost correlations (`x ** 0.65`, `x ** 0.6`) are taken as function
parameters, since the repository never computes them itself.

Three source files carry the logic under study and are embedded
directly: the canonical fermentation block `src/units/fermentation.py`,
the evaporator `src/.ipynb_checkpoints/evaporation-checkpoint.py`, and
the editor checkpoint copy of the fermentation block
`src/.ipynb_checkpoints/fermentation-checkpoint.py` (which, unlike the
canonical file, computes lactic acid and ethanol on a molar basis).
-/

/-- The fixed species set of the simulation. -/
inductive Species where
  | Water
  | Glucose
  | LacticAcid
  | Ethanol
  | WWTsludge
deriving DecidableEq

/-- Phase tag of a stream (liquid / gas / solid). -/
inductive Phase where
  | l
  | g
  | s
deriving DecidableEq

/-- A material stream: molar flow of each species (kmol/hr), temperature
(K), pressure (Pa) and a phase tag.  Molar flows are stored per species so
that equality of streams is decidable. -/
structure ProcStream where
  water : ℚ
  glucose : ℚ
  lacticAcid : ℚ
  ethanol : ℚ
  wwtSludge : ℚ
  T : ℚ
  P : ℚ
  phase : Phase
deriving DecidableEq

/-- Species-indexed access to the molar flows, mirroring `stream.imol[name]`. -/
def ProcStream.imol (st : ProcStream) : Species → ℚ
  | Species.Water => st.water
  | Species.Glucose => st.glucose
  | Species.LacticAcid => st.lacticAcid
  | Species.Ethanol => st.ethanol
  | Species.WWTsludge => st.wwtSludge

/-- Embeds `dst.copy_flow(src)`: copy the molar-flow data of `src` into
`dst`, leaving temperature, pressure and phase of `dst` untouched. -/
def ProcStream.copy_flow (dst src : ProcStream) : ProcStream :=
  { dst with
    water := src.water
    glucose := src.glucose
    lacticAcid := src.lacticAcid
    ethanol := src.ethanol
    wwtSludge := src.wwtSludge }

/-- Operating parameters of `LacticAcidFermentation`, fixed at
construction (`tau` hours, `conversion`, `biomass_yield`). -/
structure FermParams where
  tau : ℚ
  conversion : ℚ
  biomass_yield : ℚ
deriving DecidableEq

namespace LacticAcidFermentation

/-- Glucose consumption on a molar basis:
`glucose_reacted = feed.imol['Glucose'] * self.conversion`. -/
def glucose_reacted (p : FermParams) (feed : ProcStream) : ℚ :=
  feed.glucose * p.conversion

/-- Mass of glucose reacted: `glucose_mass_reacted = glucose_reacted * 180`. -/
def glucose_mass_reacted (p : FermParams) (feed : ProcStream) : ℚ :=
  glucose_reacted p feed * 180

/-- Biomass mass: `biomass_mass = glucose_mass_reacted * self.biomass_yield`. -/
def biomass_mass (p : FermParams) (feed : ProcStream) : ℚ :=
  glucose_mass_reacted p feed * p.biomass_yield

/-- Biomass molar flow: `biomass_produced = biomass_mass / 25`. -/
def biomass_produced (p : FermParams) (feed : ProcStream) : ℚ :=
  biomass_mass p feed / 25

/-- Ethanol mass: `ethanol_mass = glucose_mass_reacted * 0.02`. -/
def ethanol_mass (p : FermParams) (feed : ProcStream) : ℚ :=
  glucose_mass_reacted p feed * (2 / 100)

/-- Ethanol molar flow: `ethanol_produced = ethanol_mass / 46`. -/
def ethanol_produced (p : FermParams) (feed : ProcStream) : ℚ :=
  ethanol_mass p feed / 46

/-- Lactic-acid mass fraction: `la_fraction = 1.0 - self.biomass_yield - 0.02`. -/
def la_fraction (p : FermParams) : ℚ :=
  1 - p.biomass_yield - 2 / 100

/-- Lactic-acid mass: `lactic_acid_mass = glucose_mass_reacted * la_fraction`. -/
def lactic_acid_mass (p : FermParams) (feed : ProcStream) : ℚ :=
  glucose_mass_reacted p feed * la_fraction p

/-- Lactic-acid molar flow: `lactic_acid_produced = lactic_acid_mass / 90`. -/
def lactic_acid_produced (p : FermParams) (feed : ProcStream) : ℚ :=
  lactic_acid_mass p feed / 90

/-- Embeds `LacticAcidFermentation._run` (src/units/fermentation.py):
starting from the previous contents `broth0` of the outlet, copy the feed
flows in (`broth.copy_flow(feed)`), shift the reacted glucose into the
three products, and set `T = 37 + 273.15`, `P = feed.P`. -/
def run (p : FermParams) (feed broth0 : ProcStream) : ProcStream :=
  let broth := broth0.copy_flow feed
  { broth with
    glucose := broth.glucose - glucose_reacted p feed
    lacticAcid := broth.lacticAcid + lactic_acid_produced p feed
    wwtSludge := broth.wwtSludge + biomass_produced p feed
    ethanol := broth.ethanol + ethanol_produced p feed
    T := 37 + 27315 / 100
    P := feed.P }

/-- Design results of the fermentation sizing step
(`Reactor volume` in m3, `Number of reactors`). -/
structure FermDesign where
  reactor_volume : ℚ
  n_reactors : ℤ
deriving DecidableEq

/-- Embeds `LacticAcidFermentation._design` (src/units/fermentation.py):
`total_volume = broth.F_vol * tau`, `n_reactors = ceil(total_volume / 100)`.
`F_vol` is the volumetric flow of the broth, computed externally. -/
def design (p : FermParams) (F_vol : ℚ) : FermDesign :=
  let total_volume := F_vol * p.tau
  let reactor_size : ℚ := 100
  { reactor_volume := total_volume
    n_reactors := ⌈total_volume / reactor_size⌉ }

/-- The guarded per-reactor volume of `LacticAcidFermentation._cost`:
`V_per_reactor = V / n if n > 0 else V`. -/
def volume_per_reactor (d : FermDesign) : ℚ :=
  if d.n_reactors > 0 then d.reactor_volume / (d.n_reactors : ℚ) else d.reactor_volume

/-- Cost mappings written by the fermentation costing step. -/
structure FermCost where
  baseline_purchase_cost : ℚ
  purchase_cost : ℚ
  installed_cost : ℚ
deriving DecidableEq

/-- Embeds `LacticAcidFermentation._cost` (src/units/fermentation.py).
`pow65` stands for the external power law `x ** 0.65` of the
six-tenths-rule scaling, which the block applies but does not define. -/
def cost (pow65 : ℚ → ℚ) (d : FermDesign) : FermCost :=
  let base_cost : ℚ := 200000
  let unit_cost := base_cost * pow65 (volume_per_reactor d / 100)
  let total_purchase := unit_cost * (d.n_reactors : ℚ)
  { baseline_purchase_cost := total_purchase
    purchase_cost := total_purchase
    installed_cost := total_purchase * (28 / 10) }

end LacticAcidFermentation

/-- Division that refuses a zero divisor, used to express that a guarded
division in the source can never be reached with a zero denominator. -/
def checkedDiv (a b : ℚ) : Option ℚ :=
  if b = 0 then none else some (a / b)

/-- The costing step of the fermentation block with its one division made
explicit: `V / n if n > 0 else V` becomes a `checkedDiv` on the guarded
branch, so the step yields `none` exactly when a division by zero would
occur. -/
def LacticAcidFermentation.costChecked (pow65 : ℚ → ℚ)
    (d : LacticAcidFermentation.FermDesign) :
    Option LacticAcidFermentation.FermCost :=
  (if d.n_reactors > 0 then checkedDiv d.reactor_volume (d.n_reactors : ℚ)
   else some d.reactor_volume).map fun V_per_reactor =>
    let base_cost : ℚ := 200000
    let unit_cost := base_cost * pow65 (V_per_reactor / 100)
    let total_purchase := unit_cost * (d.n_reactors : ℚ)
    { baseline_purchase_cost := total_purchase
      purchase_cost := total_purchase
      installed_cost := total_purchase * (28 / 10) }

/-- Operating parameters of `LacticAcidEvaporator`
(src/.ipynb_checkpoints/evaporation-checkpoint.py): the fraction `V` of
water to evaporate and the vacuum operating pressure `P`, fixed at
construction. -/
structure EvapParams where
  V : ℚ
  P : ℚ
deriving DecidableEq

namespace LacticAcidEvaporator

/-- Water evaporation of `LacticAcidEvaporator._run`
(src/.ipynb_checkpoints/evaporation-checkpoint.py line 38):
`water_evaporated = feed.imol['Water'] * self.V`. -/
def water_evaporated (p : EvapParams) (feed : ProcStream) : ℚ :=
  feed.water * p.V

/-- Embeds `LacticAcidEvaporator._run`
(src/.ipynb_checkpoints/evaporation-checkpoint.py lines 31-52).  The
concentrate is `copy_flow(feed)` with Water reduced by `water_evaporated`,
then `T = 80 + 273.15`, `P = self.P` and phase forced to liquid; the vapor
is emptied and refilled as pure water at `water_evaporated`, with the same
temperature and pressure and phase forced to gas.  Every field of both
outlet streams is overwritten (the flows by `copy_flow` and `empty`, then
T, P and phase explicitly), so the result does not depend on the outlets'
previous contents and the step is a function of the feed alone. -/
def run (p : EvapParams) (feed : ProcStream) : ProcStream × ProcStream :=
  let concentrate : ProcStream :=
    { feed with
      water := feed.water - water_evaporated p feed
      phase := Phase.l
      T := 80 + 27315 / 100
      P := p.P }
  let vapor : ProcStream :=
    { water := water_evaporated p feed
      glucose := 0
      lacticAcid := 0
      ethanol := 0
      wwtSludge := 0
      phase := Phase.g
      T := 80 + 27315 / 100
      P := p.P }
  (concentrate, vapor)

/-- Design results written by `LacticAcidEvaporator._design`:
`Evaporator volume` (m3) and `Heat transfer area` (m2). -/
structure EvapDesign where
  volume : ℚ
  area : ℚ
deriving DecidableEq

/-- The duty `Q = water_evap * Hvap * 1000 / 3600` (kW, `Hvap = 40.66`) of
`LacticAcidEvaporator._design` (src/.ipynb_checkpoints/
evaporation-checkpoint.py lines 62-64), where `water_evap` is read from
the vapor outlet `self.outs[1].imol['Water']`; the value is stored on the
block as `self._evaporation_duty` (line 73) for the costing step. -/
def evaporation_duty (vapor : ProcStream) : ℚ :=
  vapor.water * (4066 / 100) * 1000 / 3600

/-- Embeds `LacticAcidEvaporator._design`
(src/.ipynb_checkpoints/evaporation-checkpoint.py lines 54-70):
`Evaporator volume = feed.F_vol * 2` (2-hour residence time) and
`Heat transfer area = Q / (U * LMTD) if LMTD > 0 else 0` with `U = 0.5`
and `LMTD = 30`, where `Q` is computed from the vapor outlet's Water flow.
`F_vol` is the feed's volumetric flow, computed externally. -/
def design (vapor : ProcStream) (F_vol : ℚ) : EvapDesign :=
  let Q := evaporation_duty vapor
  let U : ℚ := 1 / 2
  let LMTD : ℚ := 30
  { volume := F_vol * 2
    area := if LMTD > 0 then Q / (U * LMTD) else 0 }

/-- The heating-utility record created by `LacticAcidEvaporator._cost`
(src/.ipynb_checkpoints/evaporation-checkpoint.py lines 92-97): a
low-pressure-steam utility loaded with a duty (kW) at a supply
temperature (K), assigned to `self.heat_utilities`. -/
structure HeatUtility where
  duty : ℚ
  T_supply : ℚ
deriving DecidableEq

/-- Embeds the heat-utility creation of `LacticAcidEvaporator._cost`
(lines 94-97): `hu(self._evaporation_duty, 150 + 273.15)` applied to the
stored duty. -/
def utility (duty : ℚ) : HeatUtility :=
  { duty := duty
    T_supply := 150 + 27315 / 100 }

/-- Cost mappings written by `LacticAcidEvaporator._cost` (lines 88-90):
baseline purchase, purchase and installed cost of the evaporator. -/
structure EvapCost where
  baseline_purchase_cost : ℚ
  purchase_cost : ℚ
  installed_cost : ℚ
deriving DecidableEq

/-- Embeds the cost computation of `LacticAcidEvaporator._cost`
(src/.ipynb_checkpoints/evaporation-checkpoint.py lines 75-90):
`vessel_cost = 80000 * (V / 50) ** 0.6 if V > 0 else 0`,
`hx_cost = 15000 * (A / 100) ** 0.65 if A > 0 else 0`,
`total_purchase = vessel_cost + hx_cost`, installed cost 3.2 times the
purchase cost.  `pow6` and `pow65` stand for the external power laws
`x ** 0.6` and `x ** 0.65`.  The same `_cost` also creates the
heat-utility record (lines 92-97), embedded by `utility` and written
alongside these costs in `evapCostStep`. -/
def cost (pow6 pow65 : ℚ → ℚ) (d : EvapDesign) : EvapCost :=
  let vessel_cost := if d.volume > 0 then 80000 * pow6 (d.volume / 50) else 0
  let hx_cost := if d.area > 0 then 15000 * pow65 (d.area / 100) else 0
  let total_purchase := vessel_cost + hx_cost
  { baseline_purchase_cost := total_purchase
    purchase_cost := total_purchase
    installed_cost := total_purchase * (32 / 10) }

end LacticAcidEvaporator

/-- Embeds `LacticAcidFermentation._run` of the editor checkpoint copy
src/.ipynb_checkpoints/fermentation-checkpoint.py (lines 37-67).  Unlike
the canonical src/units/fermentation.py, this earlier revision produces
lactic acid stoichiometrically on a molar basis
(`lactic_acid_produced = glucose_reacted * 2`, line 49) and ethanol as
`ethanol_produced = glucose_reacted * 0.02` on a molar basis (line 57);
only the biomass keeps the mass-based yield of the canonical file. -/
def checkpointFermentation.run (p : FermParams) (feed broth0 : ProcStream) :
    ProcStream :=
  let broth := broth0.copy_flow feed
  let glucose_reacted := feed.glucose * p.conversion
  let lactic_acid_produced := glucose_reacted * 2
  let glucose_mass_reacted := glucose_reacted * 180
  let biomass_mass := glucose_mass_reacted * p.biomass_yield
  let biomass_produced := biomass_mass / 25
  let ethanol_produced := glucose_reacted * (2 / 100)
  { broth with
    glucose := broth.glucose - glucose_reacted
    lacticAcid := broth.lacticAcid + lactic_acid_produced
    wwtSludge := broth.wwtSludge + biomass_produced
    ethanol := broth.ethanol + ethanol_produced
    T := 37 + 27315 / 100
    P := feed.P }

/-- The mutable state of the fermentation block as the flowsheet engine
sees it: the bound inlet and outlet streams, the design-results mapping and
the cost mappings. -/
structure FermState where
  feed : ProcStream
  broth : ProcStream
  design_results : LacticAcidFermentation.FermDesign
  costs : LacticAcidFermentation.FermCost
deriving DecidableEq

/-- Invoking `LacticAcidFermentation._run`: overwrites the outlet stream
from the inlet; nothing else of the state changes. -/
def fermRunStep (p : FermParams) (st : FermState) : FermState :=
  { st with broth := LacticAcidFermentation.run p st.feed st.broth }

/-- Invoking `LacticAcidFermentation._design`: overwrites the
design-results mapping from the outlet stream; `vol` is the external
engine's volumetric-flow evaluation. -/
def fermDesignStep (vol : ProcStream → ℚ) (p : FermParams) (st : FermState) :
    FermState :=
  { st with design_results := LacticAcidFermentation.design p (vol st.broth) }

/-- Invoking `LacticAcidFermentation._cost`: overwrites the cost mappings
from the design results. -/
def fermCostStep (pow65 : ℚ → ℚ) (st : FermState) : FermState :=
  { st with costs := LacticAcidFermentation.cost pow65 st.design_results }

/-- One full simulation pass of the fermentation block: balance, sizing,
costing, in the order the engine invokes them. -/
def fermSimulate (vol : ProcStream → ℚ) (pow65 : ℚ → ℚ) (p : FermParams)
    (st : FermState) : FermState :=
  fermCostStep pow65 (fermDesignStep vol p (fermRunStep p st))

/-- The mutable state of the evaporation block: the bound inlet stream,
the two outlet streams, the design-results mapping, the stored
`_evaporation_duty` attribute, the cost mappings and the heat-utility
record `self.heat_utilities`. -/
structure EvapState where
  feed : ProcStream
  concentrate : ProcStream
  vapor : ProcStream
  design_results : LacticAcidEvaporator.EvapDesign
  evaporation_duty : ℚ
  costs : LacticAcidEvaporator.EvapCost
  heat_utility : LacticAcidEvaporator.HeatUtility
deriving DecidableEq

/-- Invoking the evaporator balance step `_run`: overwrites both outlet
streams from the inlet; nothing else of the state changes. -/
def evapRunStep (p : EvapParams) (st : EvapState) : EvapState :=
  { st with
    concentrate := (LacticAcidEvaporator.run p st.feed).1
    vapor := (LacticAcidEvaporator.run p st.feed).2 }

/-- Invoking the evaporator sizing step `_design`: overwrites the
design-results mapping (volume from the feed, area from the vapor outlet)
and the stored `_evaporation_duty`; the streams, costs and heat-utility
record are untouched. -/
def evapDesignStep (vol : ProcStream → ℚ) (st : EvapState) : EvapState :=
  { st with
    design_results := LacticAcidEvaporator.design st.vapor (vol st.feed)
    evaporation_duty := LacticAcidEvaporator.evaporation_duty st.vapor }

/-- Invoking the evaporator costing step `_cost`: overwrites the cost
mappings from the design results and creates the heat-utility record from
the stored duty (code lines 88-97). -/
def evapCostStep (pow6 pow65 : ℚ → ℚ) (st : EvapState) : EvapState :=
  { st with
    costs := LacticAcidEvaporator.cost pow6 pow65 st.design_results
    heat_utility := LacticAcidEvaporator.utility st.evaporation_duty }

/-- One full simulation pass of the evaporation block: balance, sizing,
costing. -/
def evapSimulate (vol : ProcStream → ℚ) (pow6 pow65 : ℚ → ℚ) (p : EvapParams)
    (st : EvapState) : EvapState :=
  evapCostStep pow6 pow65 (evapDesignStep vol (evapRunStep p st))

/-- Concrete inbound stream of the spec's fermentation scenario:
Glucose 100 kmol/hr, Water 400 kmol/hr. -/
def feedA : ProcStream :=
  { water := 400, glucose := 100, lacticAcid := 0, ethanol := 0,
    wwtSludge := 0, T := 29815 / 100, P := 101325, phase := Phase.l }

/-- Default fermentation parameters of the source
(tau 48 h, conversion 0.90, biomass yield 0.08). -/
def paramsA : FermParams :=
  { tau := 48, conversion := 9 / 10, biomass_yield := 8 / 100 }

/-- C1: FermentationBlock mass conservation.  For every inbound stream and
every biomass yield in [0, 0.98], the mass of glucose reacted equals the
biomass mass plus the ethanol mass plus the lactic-acid mass exactly,
because the fractions biomass_yield, 0.02 and 1 - biomass_yield - 0.02 sum
to 1; equivalently on the streams of the balance step, 180 times the
glucose molar flow consumed equals 25, 46 and 90 times the sludge, ethanol
and lactic-acid molar flows produced. -/
theorem c1_fermentation_mass_conservation (p : FermParams)
    (feed broth0 : ProcStream)
    (h0 : 0 ≤ p.biomass_yield) (h1 : p.biomass_yield ≤ 98 / 100) :
    LacticAcidFermentation.glucose_mass_reacted p feed =
        LacticAcidFermentation.biomass_mass p feed +
          LacticAcidFermentation.ethanol_mass p feed +
          LacticAcidFermentation.lactic_acid_mass p feed ∧
      p.biomass_yield + 2 / 100 + LacticAcidFermentation.la_fraction p = 1 ∧
      180 * (feed.glucose - (LacticAcidFermentation.run p feed broth0).glucose) =
        25 * ((LacticAcidFermentation.run p feed broth0).wwtSludge - feed.wwtSludge) +
          46 * ((LacticAcidFermentation.run p feed broth0).ethanol - feed.ethanol) +
          90 * ((LacticAcidFermentation.run p feed broth0).lacticAcid - feed.lacticAcid) := by
  refine ⟨?_, ?_, ?_⟩
  · simp only [LacticAcidFermentation.biomass_mass,
      LacticAcidFermentation.ethanol_mass, LacticAcidFermentation.lactic_acid_mass,
      LacticAcidFermentation.la_fraction]
    ring
  · simp only [LacticAcidFermentation.la_fraction]
    ring
  · simp only [LacticAcidFermentation.run, ProcStream.copy_flow,
      LacticAcidFermentation.lactic_acid_produced,
      LacticAcidFermentation.biomass_produced,
      LacticAcidFermentation.ethanol_produced,
      LacticAcidFermentation.lactic_acid_mass,
      LacticAcidFermentation.biomass_mass,
      LacticAcidFermentation.ethanol_mass,
      LacticAcidFermentation.glucose_mass_reacted,
      LacticAcidFermentation.glucose_reacted,
      LacticAcidFermentation.la_fraction]
    ring

/-- Witness for C1 at the spec's concrete scenario (Glucose 100 kmol/hr,
biomass yield 0.08). -/
theorem c1_fermentation_mass_conservation_witness :
    (0 : ℚ) ≤ paramsA.biomass_yield ∧ paramsA.biomass_yield ≤ 98 / 100 ∧
      LacticAcidFermentation.glucose_mass_reacted paramsA feedA =
        LacticAcidFermentation.biomass_mass paramsA feedA +
          LacticAcidFermentation.ethanol_mass paramsA feedA +
          LacticAcidFermentation.lactic_acid_mass paramsA feedA :=
  ⟨by norm_num [paramsA], by norm_num [paramsA],
    (c1_fermentation_mass_conservation paramsA feedA feedA (by norm_num [paramsA])
      (by norm_num [paramsA])).1⟩

/-- Concrete inbound stream of the spec's evaporation scenario:
Water 1000 kmol/hr. -/
def feedB : ProcStream :=
  { water := 1000, glucose := 0, lacticAcid := 0, ethanol := 0,
    wwtSludge := 0, T := 29815 / 100, P := 101325, phase := Phase.l }

/-- Evaporator parameters of the spec's scenario: water-removal fraction
0.70, an arbitrary vacuum operating pressure. -/
def paramsB : EvapParams :=
  { V := 7 / 10, P := 10000 }

/-- C2: EvaporationBlock water conservation and pass-through.  For every
inbound stream and water-removal fraction, the concentrate's Water molar
flow plus the vapor's Water molar flow equals the inbound Water molar
flow, and every non-water species passes through into the concentrate
unchanged while the vapor carries none of it. -/
theorem c2_evaporation_water_conservation (p : EvapParams)
    (feed : ProcStream) :
    (LacticAcidEvaporator.run p feed).1.water +
        (LacticAcidEvaporator.run p feed).2.water = feed.water ∧
      ∀ s : Species, s ≠ Species.Water →
        (LacticAcidEvaporator.run p feed).1.imol s = feed.imol s ∧
          (LacticAcidEvaporator.run p feed).2.imol s = 0 := by
  constructor
  · simp only [LacticAcidEvaporator.run, LacticAcidEvaporator.water_evaporated]
    ring
  · intro s hs
    cases s
    · exact absurd rfl hs
    all_goals
      simp [LacticAcidEvaporator.run, ProcStream.imol]

/-- Witness for C2 at the spec's concrete scenario, instantiated at the
non-water species Glucose. -/
theorem c2_evaporation_water_conservation_witness :
    (LacticAcidEvaporator.run paramsB feedB).1.water +
        (LacticAcidEvaporator.run paramsB feedB).2.water = feedB.water ∧
      (LacticAcidEvaporator.run paramsB feedB).1.imol Species.Glucose =
          feedB.imol Species.Glucose ∧
        (LacticAcidEvaporator.run paramsB feedB).2.imol Species.Glucose = 0 :=
  ⟨(c2_evaporation_water_conservation paramsB feedB).1,
    (c2_evaporation_water_conservation paramsB feedB).2 Species.Glucose
      (by simp)⟩

/-- C3 counterexample: at inbound Water = 1000 kmol/hr and V = 0.70 the
vapor and concentrate Water flows are 700 and 300 kmol/hr as claimed, but
the heat duty the sizing step computes from the vapor outlet,
700 * 40.66 * 1000 / 3600, is 71155/9 = 7906.11... kW, which differs from
the claimed 7907.8 kW by more than 1.5 kW, so the claimed approximate
duty is false. -/
theorem c3_evaporation_scenario_counterexample :
    (LacticAcidEvaporator.run paramsB feedB).2.water = 700 ∧
      (LacticAcidEvaporator.run paramsB feedB).1.water = 300 ∧
      LacticAcidEvaporator.evaporation_duty
          (LacticAcidEvaporator.run paramsB feedB).2 = 71155 / 9 ∧
      ¬ |LacticAcidEvaporator.evaporation_duty
            (LacticAcidEvaporator.run paramsB feedB).2 - 79078 / 10| < 3 / 2 := by
  refine ⟨?_, ?_, ?_, ?_⟩ <;>
    norm_num [LacticAcidEvaporator.run, LacticAcidEvaporator.evaporation_duty,
      LacticAcidEvaporator.water_evaporated, paramsB, feedB, abs]

/-- C3 (amended): at inbound Water = 1000 kmol/hr and V = 0.70 the balance
step yields vapor Water = 700 kmol/hr and concentrate Water = 300 kmol/hr,
and the sizing step yields heat duty
Q = 700 * 40.66 * 1000 / 3600 = 71155/9, approximately 7906.1 kW. -/
theorem c3_evaporation_scenario :
    (LacticAcidEvaporator.run paramsB feedB).2.water = 700 ∧
      (LacticAcidEvaporator.run paramsB feedB).1.water = 300 ∧
      LacticAcidEvaporator.evaporation_duty
          (LacticAcidEvaporator.run paramsB feedB).2 =
        700 * (4066 / 100) * 1000 / 3600 ∧
      LacticAcidEvaporator.evaporation_duty
          (LacticAcidEvaporator.run paramsB feedB).2 = 71155 / 9 ∧
      |LacticAcidEvaporator.evaporation_duty
          (LacticAcidEvaporator.run paramsB feedB).2 - 79061 / 10| < 1 / 10 := by
  refine ⟨?_, ?_, ?_, ?_, ?_⟩ <;>
    norm_num [LacticAcidEvaporator.run, LacticAcidEvaporator.evaporation_duty,
      LacticAcidEvaporator.water_evaporated, paramsB, feedB, abs]

/-- C4 counterexample: at the spec's concrete fermentation scenario
(Glucose 100 kmol/hr, conversion 0.9, biomass yield 0.08, empty previous
outlet) the checkpoint copy adds lactic acid 2 * 90 = 180 kmol/hr where
the canonical block adds 162 kmol/hr, and ethanol 1.8 kmol/hr against
162/23, so the two balance steps do not produce the same outbound
composition. -/
theorem c4_checkpoint_divergence_counterexample :
    (checkpointFermentation.run paramsA feedA feedA).lacticAcid = 180 ∧
      (LacticAcidFermentation.run paramsA feedA feedA).lacticAcid = 162 ∧
      (checkpointFermentation.run paramsA feedA feedA).ethanol = 18 / 10 ∧
      (LacticAcidFermentation.run paramsA feedA feedA).ethanol = 162 / 23 ∧
      ¬ (checkpointFermentation.run paramsA feedA feedA).imol Species.LacticAcid =
          (LacticAcidFermentation.run paramsA feedA feedA).imol Species.LacticAcid ∧
      ¬ (checkpointFermentation.run paramsA feedA feedA).imol Species.Ethanol =
          (LacticAcidFermentation.run paramsA feedA feedA).imol Species.Ethanol := by
  refine ⟨?_, ?_, ?_, ?_, ?_, ?_⟩ <;>
    norm_num [checkpointFermentation.run, LacticAcidFermentation.run,
      LacticAcidFermentation.lactic_acid_produced,
      LacticAcidFermentation.ethanol_produced,
      LacticAcidFermentation.lactic_acid_mass,
      LacticAcidFermentation.ethanol_mass,
      LacticAcidFermentation.glucose_mass_reacted,
      LacticAcidFermentation.glucose_reacted,
      LacticAcidFermentation.la_fraction,
      ProcStream.copy_flow, ProcStream.imol, paramsA, feedA]

/-- C4 (amended): the checkpoint copy of the fermentation block is an
earlier implementation, not an identical snapshot: for every inbound
stream, previous outlet contents and identical parameters, its balance
step agrees with the canonical block on the outbound Glucose and
WWTsludge molar flows, but it computes lactic acid as
2 * glucose_reacted and ethanol as 0.02 * glucose_reacted on a molar
basis, so its lactic-acid flow exceeds the canonical one by exactly
2 * (biomass_yield + 0.02) * glucose_reacted and its ethanol flow differs
by (0.02 - 0.02 * 180 / 46) * glucose_reacted; the compositions agree
only when no glucose reacts. -/
theorem c4_checkpoint_divergence (p : FermParams)
    (feed broth0 : ProcStream) :
    (checkpointFermentation.run p feed broth0).glucose =
        (LacticAcidFermentation.run p feed broth0).glucose ∧
      (checkpointFermentation.run p feed broth0).wwtSludge =
        (LacticAcidFermentation.run p feed broth0).wwtSludge ∧
      (checkpointFermentation.run p feed broth0).lacticAcid -
          (LacticAcidFermentation.run p feed broth0).lacticAcid =
        2 * (p.biomass_yield + 2 / 100) *
          LacticAcidFermentation.glucose_reacted p feed ∧
      (checkpointFermentation.run p feed broth0).ethanol -
          (LacticAcidFermentation.run p feed broth0).ethanol =
        (2 / 100 - (2 / 100) * 180 / 46) *
          LacticAcidFermentation.glucose_reacted p feed := by
  refine ⟨rfl, rfl, ?_, ?_⟩ <;>
    simp only [checkpointFermentation.run, LacticAcidFermentation.run,
      LacticAcidFermentation.lactic_acid_produced,
      LacticAcidFermentation.ethanol_produced,
      LacticAcidFermentation.lactic_acid_mass,
      LacticAcidFermentation.ethanol_mass,
      LacticAcidFermentation.glucose_mass_reacted,
      LacticAcidFermentation.glucose_reacted,
      LacticAcidFermentation.la_fraction, ProcStream.copy_flow] <;>
    ring

/-- Fermentation parameters at the degenerate biomass yield 0.98, where
the lactic-acid fraction 1 - 0.98 - 0.02 is zero, with conversion 0.5. -/
def paramsC : FermParams :=
  { tau := 48, conversion := 1 / 2, biomass_yield := 98 / 100 }

/-- The parameters `paramsC` with the conversion raised to 0.6. -/
def paramsD : FermParams :=
  { tau := 48, conversion := 6 / 10, biomass_yield := 98 / 100 }

/-- C5 counterexample: at biomass yield 0.98 (the top of the spec's
allowed range [0, 0.98]) the lactic-acid fraction is zero, so raising the
conversion from 0.5 to 0.6 on a feed with Glucose = 100 kmol/hr leaves the
lactic-acid molar flow unchanged at zero: the increase is not strict even
though the reacted glucose is positive. -/
theorem c5_monotonicity_counterexample :
    LacticAcidFermentation.glucose_reacted paramsC feedA > 0 ∧
      paramsC.conversion < paramsD.conversion ∧
      paramsC.tau = paramsD.tau ∧
      paramsC.biomass_yield = paramsD.biomass_yield ∧
      ¬ (LacticAcidFermentation.run paramsC feedA feedA).lacticAcid <
          (LacticAcidFermentation.run paramsD feedA feedA).lacticAcid := by
  refine ⟨?_, ?_, ?_, ?_, ?_⟩ <;>
    norm_num [LacticAcidFermentation.glucose_reacted,
      LacticAcidFermentation.run, LacticAcidFermentation.lactic_acid_produced,
      LacticAcidFermentation.lactic_acid_mass,
      LacticAcidFermentation.glucose_mass_reacted,
      LacticAcidFermentation.glucose_reacted, LacticAcidFermentation.la_fraction,
      ProcStream.copy_flow, paramsC, paramsD, feedA]

/-- C5 (amended): for every inbound stream with positive Glucose flow and
all other parameters held fixed, increasing the conversion strictly
decreases the residual outbound Glucose molar flow; and provided the
biomass yield is strictly below 0.98 (so the lactic-acid fraction is
positive), it strictly increases the outbound lactic-acid molar flow. -/
theorem c5_monotonicity_in_conversion (p : FermParams)
    (feed broth0 : ProcStream) (c1 c2 : ℚ)
    (hg : 0 < feed.glucose) (hc : c1 < c2) :
    (LacticAcidFermentation.run { p with conversion := c2 } feed broth0).glucose <
        (LacticAcidFermentation.run { p with conversion := c1 } feed broth0).glucose ∧
      (p.biomass_yield < 98 / 100 →
        (LacticAcidFermentation.run { p with conversion := c1 } feed broth0).lacticAcid <
          (LacticAcidFermentation.run { p with conversion := c2 } feed broth0).lacticAcid) := by
  constructor
  · simp only [LacticAcidFermentation.run, ProcStream.copy_flow,
      LacticAcidFermentation.glucose_reacted]
    have := mul_lt_mul_of_pos_left hc hg
    linarith
  · intro hb
    simp only [LacticAcidFermentation.run, ProcStream.copy_flow,
      LacticAcidFermentation.lactic_acid_produced,
      LacticAcidFermentation.lactic_acid_mass,
      LacticAcidFermentation.glucose_mass_reacted,
      LacticAcidFermentation.glucose_reacted,
      LacticAcidFermentation.la_fraction]
    have hlaf : 0 < 1 - p.biomass_yield - 2 / 100 := by linarith
    have h1 : feed.glucose * c1 < feed.glucose * c2 :=
      mul_lt_mul_of_pos_left hc hg
    have h2 : feed.glucose * c1 * 180 * (1 - p.biomass_yield - 2 / 100) <
        feed.glucose * c2 * 180 * (1 - p.biomass_yield - 2 / 100) := by
      nlinarith
    linarith

/-- Witness for C5 (amended) at the spec's concrete scenario, raising the
conversion from 0.5 to 0.9 at biomass yield 0.08. -/
theorem c5_monotonicity_in_conversion_witness :
    (LacticAcidFermentation.run { paramsA with conversion := 9 / 10 } feedA feedA).glucose <
        (LacticAcidFermentation.run { paramsA with conversion := 1 / 2 } feedA feedA).glucose ∧
      (LacticAcidFermentation.run { paramsA with conversion := 1 / 2 } feedA feedA).lacticAcid <
        (LacticAcidFermentation.run { paramsA with conversion := 9 / 10 } feedA feedA).lacticAcid :=
  ⟨(c5_monotonicity_in_conversion paramsA feedA feedA (1 / 2) (9 / 10)
      (by norm_num [feedA]) (by norm_num)).1,
    (c5_monotonicity_in_conversion paramsA feedA feedA (1 / 2) (9 / 10)
      (by norm_num [feedA]) (by norm_num)).2 (by norm_num [paramsA])⟩

/-- C6: idempotence.  For either block, running the balance, sizing and
costing steps a second time with the same inbound stream and parameters
reproduces exactly the same block state (outbound streams, design results,
costs, and the evaporator's utility record): each step overwrites its
results, and the balance step resets the outbound composition from the
feed, so nothing accumulates. -/
theorem c6_idempotence (vol : ProcStream → ℚ) (pow65 pow6 pow65e : ℚ → ℚ)
    (p : FermParams) (q : EvapParams) (st : FermState) (et : EvapState) :
    fermSimulate vol pow65 p (fermSimulate vol pow65 p st) =
        fermSimulate vol pow65 p st ∧
      evapSimulate vol pow6 pow65e q (evapSimulate vol pow6 pow65e q et) =
        evapSimulate vol pow6 pow65e q et :=
  ⟨rfl, rfl⟩

/-- C7: boundary behaviour.  With conversion = 0 the fermentation balance
step reacts no glucose and adds no lactic acid, biomass or ethanol, so the
outbound composition equals the inbound composition; with V = 0 the
evaporator balance step produces a vapor with zero flow of every species
and a concentrate whose composition equals the inbound composition, apart
from the fixed temperature and pressure override. -/
theorem c7_boundary_behaviour (p : FermParams) (q : EvapParams)
    (feed broth0 feedE : ProcStream)
    (hp : p.conversion = 0) (hq : q.V = 0) :
    LacticAcidFermentation.glucose_reacted p feed = 0 ∧
      LacticAcidFermentation.lactic_acid_produced p feed = 0 ∧
      LacticAcidFermentation.biomass_produced p feed = 0 ∧
      LacticAcidFermentation.ethanol_produced p feed = 0 ∧
      (∀ s : Species,
        (LacticAcidFermentation.run p feed broth0).imol s = feed.imol s) ∧
      (∀ s : Species, (LacticAcidEvaporator.run q feedE).2.imol s = 0) ∧
      (∀ s : Species,
        (LacticAcidEvaporator.run q feedE).1.imol s = feedE.imol s) ∧
      (LacticAcidEvaporator.run q feedE).1.T = 80 + 27315 / 100 ∧
      (LacticAcidEvaporator.run q feedE).1.P = q.P := by
  have h0 : LacticAcidFermentation.glucose_reacted p feed = 0 := by
    simp [LacticAcidFermentation.glucose_reacted, hp]
  refine ⟨h0, ?_, ?_, ?_, ?_, ?_, ?_, rfl, rfl⟩
  · simp [LacticAcidFermentation.lactic_acid_produced,
      LacticAcidFermentation.lactic_acid_mass,
      LacticAcidFermentation.glucose_mass_reacted, h0]
  · simp [LacticAcidFermentation.biomass_produced,
      LacticAcidFermentation.biomass_mass,
      LacticAcidFermentation.glucose_mass_reacted, h0]
  · simp [LacticAcidFermentation.ethanol_produced,
      LacticAcidFermentation.ethanol_mass,
      LacticAcidFermentation.glucose_mass_reacted, h0]
  · intro s
    cases s <;>
      simp [LacticAcidFermentation.run, ProcStream.copy_flow, ProcStream.imol,
        LacticAcidFermentation.lactic_acid_produced,
        LacticAcidFermentation.biomass_produced,
        LacticAcidFermentation.ethanol_produced,
        LacticAcidFermentation.lactic_acid_mass,
        LacticAcidFermentation.biomass_mass,
        LacticAcidFermentation.ethanol_mass,
        LacticAcidFermentation.glucose_mass_reacted,
        LacticAcidFermentation.glucose_reacted, hp]
  · intro s
    cases s <;>
      simp [LacticAcidEvaporator.run, LacticAcidEvaporator.water_evaporated,
        ProcStream.imol, hq]
  · intro s
    cases s <;>
      simp [LacticAcidEvaporator.run, LacticAcidEvaporator.water_evaporated,
        ProcStream.imol, hq]

/-- Witness for C7: conversion = 0 on the fermentation scenario feed and
V = 0 on the evaporation scenario feed, evaluated at the Glucose and Water
flows. -/
theorem c7_boundary_behaviour_witness :
    LacticAcidFermentation.glucose_reacted { paramsA with conversion := 0 } feedA = 0 ∧
      (LacticAcidFermentation.run { paramsA with conversion := 0 } feedA feedA).imol
          Species.Glucose = feedA.imol Species.Glucose ∧
      (LacticAcidEvaporator.run { paramsB with V := 0 } feedB).2.imol
          Species.Water = 0 ∧
      (LacticAcidEvaporator.run { paramsB with V := 0 } feedB).1.imol
          Species.Water = feedB.imol Species.Water :=
  ⟨(c7_boundary_behaviour { paramsA with conversion := 0 } { paramsB with V := 0 }
      feedA feedA feedB rfl rfl).1,
    (c7_boundary_behaviour { paramsA with conversion := 0 } { paramsB with V := 0 }
      feedA feedA feedB rfl rfl).2.2.2.2.1 Species.Glucose,
    (c7_boundary_behaviour { paramsA with conversion := 0 } { paramsB with V := 0 }
      feedA feedA feedB rfl rfl).2.2.2.2.2.1 Species.Water,
    (c7_boundary_behaviour { paramsA with conversion := 0 } { paramsB with V := 0 }
      feedA feedA feedB rfl rfl).2.2.2.2.2.2.1 Species.Water⟩

/-- C8: division-by-zero guard in fermentation costing.  With the guarded
division made explicit, the costing step succeeds (never divides by zero)
for every design result with a non-negative reactor count, it agrees with
the ordinary costing step, and when the reactor count is zero the
per-reactor volume used is the total reactor volume itself. -/
theorem c8_cost_division_guard (pow65 : ℚ → ℚ)
    (d : LacticAcidFermentation.FermDesign) (h : 0 ≤ d.n_reactors) :
    (LacticAcidFermentation.costChecked pow65 d).isSome = true ∧
      LacticAcidFermentation.costChecked pow65 d =
        some (LacticAcidFermentation.cost pow65 d) ∧
      (d.n_reactors = 0 →
        LacticAcidFermentation.volume_per_reactor d = d.reactor_volume) := by
  by_cases hn : d.n_reactors > 0
  · have hz : (d.n_reactors : ℚ) ≠ 0 := by
      exact_mod_cast (by omega : d.n_reactors ≠ 0)
    refine ⟨?_, ?_, ?_⟩
    · simp [LacticAcidFermentation.costChecked, checkedDiv, hn, hz]
    · simp [LacticAcidFermentation.costChecked, checkedDiv,
        LacticAcidFermentation.cost, LacticAcidFermentation.volume_per_reactor,
        hn, hz]
    · intro h0
      omega
  · refine ⟨?_, ?_, ?_⟩
    · simp [LacticAcidFermentation.costChecked, hn]
    · simp [LacticAcidFermentation.costChecked, LacticAcidFermentation.cost,
        LacticAcidFermentation.volume_per_reactor, hn]
    · intro _
      simp [LacticAcidFermentation.volume_per_reactor, hn]

/-- Witness for C8 at the degenerate design result of a zero-flow feed:
zero reactor volume and zero reactors. -/
theorem c8_cost_division_guard_witness :
    (LacticAcidFermentation.costChecked id
        { reactor_volume := 0, n_reactors := 0 }).isSome = true ∧
      LacticAcidFermentation.volume_per_reactor
          { reactor_volume := 0, n_reactors := 0 } =
        LacticAcidFermentation.FermDesign.reactor_volume
          { reactor_volume := 0, n_reactors := 0 } :=
  ⟨(c8_cost_division_guard id { reactor_volume := 0, n_reactors := 0 }
      (by norm_num)).1,
    (c8_cost_division_guard id { reactor_volume := 0, n_reactors := 0 }
      (by norm_num)).2.2 rfl⟩

/-- C9: frame property.  Each step of either block leaves the inbound
stream untouched (composition, temperature, pressure and phase alike), and
each step writes only its own slots of the block state: the balance step
leaves design results, costs and the utility record alone; the sizing step
leaves the outbound streams, costs and (for Evaporation) the heat-utility
record alone, writing only the design results and the stored duty; and the
costing step leaves the outbound streams and design results alone, writing
the cost mappings and (for Evaporation) the heat-utility record. -/
theorem c9_frame_property (vol : ProcStream → ℚ) (pow65 pow6 pow65e : ℚ → ℚ)
    (p : FermParams) (q : EvapParams) (st : FermState) (et : EvapState) :
    (fermRunStep p st).feed = st.feed ∧
      (fermDesignStep vol p st).feed = st.feed ∧
      (fermCostStep pow65 st).feed = st.feed ∧
      (fermRunStep p st).design_results = st.design_results ∧
      (fermRunStep p st).costs = st.costs ∧
      (fermDesignStep vol p st).broth = st.broth ∧
      (fermDesignStep vol p st).costs = st.costs ∧
      (fermCostStep pow65 st).broth = st.broth ∧
      (fermCostStep pow65 st).design_results = st.design_results ∧
      (evapRunStep q et).feed = et.feed ∧
      (evapDesignStep vol et).feed = et.feed ∧
      (evapCostStep pow6 pow65e et).feed = et.feed ∧
      (evapRunStep q et).design_results = et.design_results ∧
      (evapRunStep q et).evaporation_duty = et.evaporation_duty ∧
      (evapRunStep q et).costs = et.costs ∧
      (evapRunStep q et).heat_utility = et.heat_utility ∧
      (evapDesignStep vol et).concentrate = et.concentrate ∧
      (evapDesignStep vol et).vapor = et.vapor ∧
      (evapDesignStep vol et).costs = et.costs ∧
      (evapDesignStep vol et).heat_utility = et.heat_utility ∧
      (evapCostStep pow6 pow65e et).concentrate = et.concentrate ∧
      (evapCostStep pow6 pow65e et).vapor = et.vapor ∧
      (evapCostStep pow6 pow65e et).design_results = et.design_results ∧
      (evapCostStep pow6 pow65e et).evaporation_duty = et.evaporation_duty :=
  ⟨rfl, rfl, rfl, rfl, rfl, rfl, rfl, rfl, rfl, rfl, rfl, rfl, rfl, rfl,
    rfl, rfl, rfl, rfl, rfl, rfl, rfl, rfl, rfl, rfl⟩

/-- C10: implicit reactor-count invariant.  For every non-negative total
reactor volume computed by the fermentation sizing step, the reactor count
is the least non-negative integer n with n * 100 at least the volume: the
count times 100 covers the volume, the count is non-negative, any
non-negative integer whose hundredfold covers the volume is at least the
count, and the count is zero exactly when the volume is zero. -/
theorem c10_reactor_count_invariant (p : FermParams) (F_vol : ℚ)
    (h : 0 ≤ (LacticAcidFermentation.design p F_vol).reactor_volume) :
    (LacticAcidFermentation.design p F_vol).reactor_volume ≤
        ((LacticAcidFermentation.design p F_vol).n_reactors : ℚ) * 100 ∧
      0 ≤ (LacticAcidFermentation.design p F_vol).n_reactors ∧
      (∀ n : ℤ, 0 ≤ n →
        (LacticAcidFermentation.design p F_vol).reactor_volume ≤ (n : ℚ) * 100 →
        (LacticAcidFermentation.design p F_vol).n_reactors ≤ n) ∧
      ((LacticAcidFermentation.design p F_vol).n_reactors = 0 ↔
        (LacticAcidFermentation.design p F_vol).reactor_volume = 0) := by
  simp only [LacticAcidFermentation.design] at h ⊢
  set V : ℚ := F_vol * p.tau with hV
  have h100 : (0 : ℚ) < 100 := by norm_num
  refine ⟨?_, ?_, ?_, ?_⟩
  · have := Int.le_ceil (V / 100)
    calc V = V / 100 * 100 := by field_simp
    _ ≤ (⌈V / 100⌉ : ℚ) * 100 := by
        exact mul_le_mul_of_nonneg_right this (by norm_num)
  · exact Int.ceil_nonneg (by positivity)
  · intro n _ hn
    exact Int.ceil_le.mpr ((div_le_iff₀ h100).mpr hn)
  · constructor
    · intro h0
      have hle : V / 100 ≤ ((0 : ℤ) : ℚ) := Int.ceil_le.mp (le_of_eq h0)
      have : V ≤ 0 := by
        rw [div_le_iff₀ h100] at hle
        simpa using hle
      linarith
    · intro h0
      rw [h0]
      simp

/-- Witness for C10 at tau = 48 h and a broth volumetric flow of
1 m3/hr: the volume is 48 m3 and the reactor count 1. -/
theorem c10_reactor_count_invariant_witness :
    (LacticAcidFermentation.design paramsA 1).reactor_volume ≤
        ((LacticAcidFermentation.design paramsA 1).n_reactors : ℚ) * 100 ∧
      0 ≤ (LacticAcidFermentation.design paramsA 1).n_reactors ∧
      ((LacticAcidFermentation.design paramsA 1).n_reactors = 0 ↔
        (LacticAcidFermentation.design paramsA 1).reactor_volume = 0) :=
  ⟨(c10_reactor_count_invariant paramsA 1 (by norm_num [LacticAcidFermentation.design, paramsA])).1,
    (c10_reactor_count_invariant paramsA 1 (by norm_num [LacticAcidFermentation.design, paramsA])).2.1,
    (c10_reactor_count_invariant paramsA 1 (by norm_num [LacticAcidFermentation.design, paramsA])).2.2.2⟩
